import Mathlib

/-!
Verification of the qrcatalog filtering / pagination / change-detection /
cart-reconciliation engine.

The definitions below are a shallow embedding of the Go source:

* product filtering      : internal/db (FilterProducts and helpers)
* catalog filtering      : internal/db (FilterCatalogProducts and helpers)
* section filtering      : internal/db/sections.go
* change detection       : internal/db/sections.go (UpdateSection and helpers)
* cart reconciliation    : internal/db/cart.go

Go machine integers are modelled as Int (no overflow is relevant at the
values involved), Go strings as String, nullable columns as Option,
fallible scans as Except, and the variadic-index panic in NewCart as
Option.  Database mutation statements are reified as inductive values so
that the set of statements a call would emit can be reasoned about.
-/

namespace QRCatalog

/-- Go: type SearchMode string; the zero value is the empty string. -/
abbrev SearchMode := String

/-- Go: SearchModeFullText SearchMode = "fulltext" -/
def SearchModeFullText : SearchMode := "fulltext"

/-- Go: SearchModeExact SearchMode = "exact" -/
def SearchModeExact : SearchMode := "exact"

/-- Go: SearchModeFuzzy SearchMode = "fuzzy" -/
def SearchModeFuzzy : SearchMode := "fuzzy"

/-- Go strings.ToLower, restricted to the ASCII tokens that occur as sort keys:
every character is lower-cased. -/
def goToLower (s : String) : String := String.mk (s.data.map Char.toLower)

/-- Go: type ProductFilterParams struct (internal/db products file). -/
structure ProductFilterParams where
  ids : List String := []
  search : String := ""
  searchMode : SearchMode := ""
  category : String := ""
  sort : String := ""
  page : Int := 0
  limit : Int := 0
  available : Int := 0
  quantity : Int := 0
  withQRCode : Int := 0
deriving Repr, DecidableEq

/-- The default-setting prologue of FilterProducts:
if Page < 1 then Page = 1; if Limit < 1 or Limit > 100 then Limit = 20;
if SearchMode == "" then SearchMode = fulltext. -/
def normalizeProductFilters (f : ProductFilterParams) : ProductFilterParams :=
  let f1 := if f.page < 1 then { f with page := 1 } else f
  let f2 := if f1.limit < 1 ∨ f1.limit > 100 then { f1 with limit := 20 } else f1
  if f2.searchMode = "" then { f2 with searchMode := SearchModeFullText } else f2

/-- FilterProducts: offset := (filters.Page - 1) * filters.Limit, computed after
normalization. -/
def productFilterOffset (f : ProductFilterParams) : Int :=
  let n := normalizeProductFilters f
  (n.page - 1) * n.limit

/-- Go: type SectionFilterParams struct (internal/db/sections.go). -/
structure SectionFilterParams where
  ids : List String := []
  search : String := ""
  searchMode : SearchMode := ""
  hasImage : Int := 0
  hasBGImage : Int := 0
  paragraphCount : Int := 0
  serviceCount : Int := 0
  itemCount : Int := 0
  minPrice : Int := 0
  maxPrice : Int := 0
  createdAfter : String := ""
  createdBefore : String := ""
  updatedAfter : String := ""
  updatedBefore : String := ""
  sort : String := ""
  page : Int := 0
  limit : Int := 0
deriving Repr, DecidableEq

/-- The default-setting prologue of FilterSections (sections.go lines 724-733);
identical shape to the product one. -/
def normalizeSectionFilters (f : SectionFilterParams) : SectionFilterParams :=
  let f1 := if f.page < 1 then { f with page := 1 } else f
  let f2 := if f1.limit < 1 ∨ f1.limit > 100 then { f1 with limit := 20 } else f1
  if f2.searchMode = "" then { f2 with searchMode := SearchModeFullText } else f2

/-- FilterSections: offset := (filters.Page - 1) * filters.Limit. -/
def sectionFilterOffset (f : SectionFilterParams) : Int :=
  let n := normalizeSectionFilters f
  (n.page - 1) * n.limit

/-- buildProductsOrderByClause (products file).  The Go switch on
strings.ToLower(filters.Sort) is rendered as an if-chain with the same cases
in the same order. -/
def buildProductsOrderByClause (filters : ProductFilterParams) : String :=
  if filters.search ≠ "" ∧ filters.searchMode = SearchModeFullText then
    let s := goToLower filters.sort
    if s = "relevance" ∨ s = "" then "ORDER BY search_rank DESC, name ASC"
    else if s = "name_asc" ∨ s = "name" then "ORDER BY name ASC"
    else if s = "name_desc" then "ORDER BY name DESC"
    else if s = "price_asc" then "ORDER BY price ASC, search_rank DESC"
    else if s = "price_desc" then "ORDER BY price DESC, search_rank DESC"
    else "ORDER BY search_rank DESC, name ASC"
  else
    let s := goToLower filters.sort
    if s = "name_asc" ∨ s = "name" ∨ s = "" then "ORDER BY name ASC"
    else if s = "name_desc" then "ORDER BY name DESC"
    else if s = "price_asc" then "ORDER BY price ASC"
    else if s = "price_desc" then "ORDER BY price DESC"
    else if s = "newest" then "ORDER BY id DESC"
    else if s = "oldest" then "ORDER BY id ASC"
    else if s = "category" then "ORDER BY category ASC, name ASC"
    else "ORDER BY name ASC"

/-- buildSectionOrderByClause (sections.go lines 990-1046). -/
def buildSectionOrderByClause (filters : SectionFilterParams) : String :=
  if filters.search ≠ "" ∧ filters.searchMode = SearchModeFullText then
    let s := goToLower filters.sort
    if s = "relevance" ∨ s = "" then "ORDER BY search_rank DESC, name ASC"
    else if s = "name_asc" ∨ s = "name" then "ORDER BY name ASC"
    else if s = "name_desc" then "ORDER BY name DESC"
    else if s = "title_asc" then "ORDER BY title ASC, search_rank DESC"
    else if s = "title_desc" then "ORDER BY title DESC, search_rank DESC"
    else if s = "created_asc" then "ORDER BY created_at ASC, search_rank DESC"
    else if s = "created_desc" ∨ s = "newest" then "ORDER BY created_at DESC, search_rank DESC"
    else if s = "updated_asc" then "ORDER BY updated_at ASC, search_rank DESC"
    else if s = "updated_desc" ∨ s = "recent" then "ORDER BY updated_at DESC, search_rank DESC"
    else "ORDER BY search_rank DESC, name ASC"
  else
    let s := goToLower filters.sort
    if s = "name_asc" ∨ s = "name" ∨ s = "" then "ORDER BY name ASC"
    else if s = "name_desc" then "ORDER BY name DESC"
    else if s = "title_asc" then "ORDER BY title ASC"
    else if s = "title_desc" then "ORDER BY title DESC"
    else if s = "created_asc" then "ORDER BY created_at ASC"
    else if s = "created_desc" ∨ s = "newest" then "ORDER BY created_at DESC"
    else if s = "updated_asc" then "ORDER BY updated_at ASC"
    else if s = "updated_desc" ∨ s = "recent" then "ORDER BY updated_at DESC"
    else if s = "paragraphs_asc" then "ORDER BY json_array_length(paragraphs) ASC, name ASC"
    else if s = "paragraphs_desc" then "ORDER BY json_array_length(paragraphs) DESC, name ASC"
    else if s = "services_asc" then "ORDER BY json_array_length(services) ASC, name ASC"
    else if s = "services_desc" then "ORDER BY json_array_length(services) DESC, name ASC"
    else "ORDER BY name ASC"

/-- The pagination metadata of ProductFilterResult / SectionFilterResult.
totalPages is int(math.Ceil(float64(total) / float64(limit))), modelled as the
exact rational ceiling. -/
structure FilterResultMeta where
  total : Int
  page : Int
  limit : Int
  totalPages : Int
  hasNext : Bool
  hasPrevious : Bool
deriving Repr, DecidableEq

/-- The metadata FilterProducts puts into its ProductFilterResult, as a function
of the raw filter params and the COUNT(*) result: normalization happens first,
then totalPages = ceil(total/limit), HasNext = Page < totalPages,
HasPrevious = Page > 1. -/
def buildProductFilterMeta (filters : ProductFilterParams) (total : Int) : FilterResultMeta :=
  let f := normalizeProductFilters filters
  let totalPages : Int := ⌈(total : ℚ) / (f.limit : ℚ)⌉
  { total := total
    page := f.page
    limit := f.limit
    totalPages := totalPages
    hasNext := decide (f.page < totalPages)
    hasPrevious := decide (f.page > 1) }

/-- The metadata FilterSections puts into its SectionFilterResult (sections.go
lines 752-864), identical in shape to the product one. -/
def buildSectionFilterMeta (filters : SectionFilterParams) (total : Int) : FilterResultMeta :=
  let f := normalizeSectionFilters filters
  let totalPages : Int := ⌈(total : ℚ) / (f.limit : ℚ)⌉
  { total := total
    page := f.page
    limit := f.limit
    totalPages := totalPages
    hasNext := decide (f.page < totalPages)
    hasPrevious := decide (f.page > 1) }

/-! ## Cart reconciliation (internal/db/cart.go) -/

/-- Go: type CartItem struct.  Time fields are carried as opaque strings. -/
structure CartItem where
  productID : String
  name : String := ""
  category : String := ""
  imageURL : String := ""
  quantity : Int
  maxQty : Int
  source : String := ""
  stepIndex : Int := 0
  createdAt : String := ""
  updatedAt : String := ""
deriving Repr, DecidableEq

/-- Go: type Cart struct.  The map[string]bool updatedFields is modelled as the
list of keys that have been set to true (insertion order). -/
structure Cart where
  id : String
  customerName : String := ""
  customerEmail : String := ""
  customerPhone : String := ""
  items : List CartItem
  createdAt : String := ""
  isSubmitted : Bool := false
  updatedFields : List String
  removedItems : List String
  isNew : Bool
deriving Repr, DecidableEq

/-- map[string]bool set-to-true, keeping one copy of each key. -/
def setUpdated (fields : List String) (key : String) : List String :=
  if key ∈ fields then fields else fields ++ [key]

/-- NewCart(id ...string): the body unconditionally reads id[0], so a call with
no arguments panics (modelled as none).  When id[0] is empty a fresh UUID is
generated; the generator is passed in as gen. -/
def NewCart (gen : String) (id : List String) : Option Cart :=
  match id with
  | [] => none
  | cartID :: _ =>
    let cartID := if cartID = "" then gen else cartID
    some
      { id := cartID
        customerName := ""
        customerEmail := ""
        customerPhone := ""
        items := []
        updatedFields := []
        removedItems := []
        isNew := true }

/-- The AddItem merge loop: add item.Quantity onto the first line with the same
ProductID (Go breaks after the first match). -/
def addQtyToFirst : List CartItem → CartItem → List CartItem
  | [], _ => []
  | i :: rest, item =>
    if i.productID = item.productID then
      { i with quantity := i.quantity + item.quantity } :: rest
    else
      i :: addQtyToFirst rest item

/-- Cart.AddItem: mark items updated; merge into an existing line or append. -/
def Cart.addItem (c : Cart) (item : CartItem) : Cart :=
  let c := { c with updatedFields := setUpdated c.updatedFields "items" }
  if c.items.any (fun i => i.productID = item.productID) then
    { c with items := addQtyToFirst c.items item }
  else
    { c with items := c.items ++ [item] }

/-- The RemoveItem deletion loop: drop the first line with the given ProductID. -/
def removeFirstItem : List CartItem → String → List CartItem
  | [], _ => []
  | i :: rest, itemID =>
    if i.productID = itemID then rest
    else i :: removeFirstItem rest itemID

/-- Cart.RemoveItem: mark items updated; always record itemID in removedItems;
then drop the first matching line (the early return on an empty list is
behaviourally the identity). -/
def Cart.removeItem (c : Cart) (itemID : String) : Cart :=
  let c := { c with updatedFields := setUpdated c.updatedFields "items" }
  let c := { c with removedItems := c.removedItems ++ [itemID] }
  if c.items = [] then c
  else { c with items := removeFirstItem c.items itemID }

/-- The UpdateItemQty positive-quantity loop: set the first matching line's
quantity to min(quantity, item.MaxQty). -/
def updateQtyFirst : List CartItem → String → Int → List CartItem
  | [], _, _ => []
  | i :: rest, itemID, quantity =>
    if itemID = i.productID then
      { i with quantity := min quantity i.maxQty } :: rest
    else
      i :: updateQtyFirst rest itemID quantity

/-- Cart.UpdateItemQty: mark items updated; quantity <= 0 routes to RemoveItem;
otherwise clamp into the line's MaxQty. -/
def Cart.updateItemQty (c : Cart) (itemID : String) (quantity : Int) : Cart :=
  let c := { c with updatedFields := setUpdated c.updatedFields "items" }
  if quantity ≤ 0 then
    c.removeItem itemID
  else
    { c with items := updateQtyFirst c.items itemID quantity }

/-- Cart.ClearCart: move every line's ProductID into removedItems and empty the
line list (Go does not touch updatedFields here). -/
def Cart.clearCart (c : Cart) : Cart :=
  { c with
    removedItems := c.removedItems ++ c.items.map (fun i => i.productID)
    items := [] }

/-- Cart.GetItemQuantity: quantity of the first matching line, 0 when absent. -/
def Cart.getItemQuantity (c : Cart) (itemID : String) : Int :=
  match c.items.find? (fun i => i.productID = itemID) with
  | some i => i.quantity
  | none => 0

/-- Cart.GetItemMaxQty: MaxQty of the first matching line, 0 when absent. -/
def Cart.getItemMaxQty (c : Cart) (itemID : String) : Int :=
  match c.items.find? (fun i => i.productID = itemID) with
  | some i => i.maxQty
  | none => 0

/-- One row upserted into cart_items by Cart.Save (the named arguments of the
INSERT ... ON CONFLICT DO UPDATE statement). -/
structure PersistedLine where
  cartID : String
  productID : String
  quantity : Int
  source : String
deriving Repr, DecidableEq

/-- The cart_items upserts Cart.Save emits: one per in-memory line, and only
when updatedFields["items"] is set. -/
def Cart.saveItemUpserts (c : Cart) : List PersistedLine :=
  if "items" ∈ c.updatedFields then
    c.items.map (fun i =>
      { cartID := c.id, productID := i.productID, quantity := i.quantity, source := i.source })
  else
    []

/-- The cart_items deletions Cart.Save emits: the pending-removal set, when
non-empty. -/
def Cart.saveItemDeletes (c : Cart) : List String :=
  if c.removedItems ≠ [] then c.removedItems else []

/-- A cart operation, for stating properties of operation sequences. -/
inductive CartOp where
  | add (item : CartItem)
  | update (itemID : String) (quantity : Int)
  | remove (itemID : String)
  | clear
deriving Repr, DecidableEq

/-- Apply one cart operation. -/
def applyCartOp (c : Cart) : CartOp → Cart
  | .add item => c.addItem item
  | .update itemID quantity => c.updateItemQty itemID quantity
  | .remove itemID => c.removeItem itemID
  | .clear => c.clearCart

/-- Apply a sequence of cart operations, left to right. -/
def applyCartOps (c : Cart) (ops : List CartOp) : Cart :=
  ops.foldl applyCartOp c

/-- The spec invariant on cart lines: every line has positive quantity bounded
by its positive max-stock bound. -/
def CartLinesInv (items : List CartItem) : Prop :=
  ∀ i ∈ items, 0 < i.quantity ∧ i.quantity ≤ i.maxQty ∧ 0 < i.maxQty

/-! ## Section aggregates and change detection (internal/db/sections.go) -/

/-- Go: type SectionServiceItem struct. -/
structure SectionServiceItem where
  id : String
  serviceID : String := ""
  order : Int := 0
  price : Int := 0
  content : String := ""
  contentAsList : Bool := false
  contentList : List String := []
  createdAt : String := ""
  updatedAt : String := ""
deriving Repr, DecidableEq

/-- Go: type SectionService struct. -/
structure SectionService where
  id : String
  sectionID : String := ""
  title : String := ""
  price : Int := 0
  description : String := ""
  items : List SectionServiceItem := []
  createdAt : String := ""
  updatedAt : String := ""
deriving Repr, DecidableEq

/-- Go: type SectionParagraph struct. -/
structure SectionParagraph where
  id : String
  sectionID : String := ""
  order : Int := 0
  content : String := ""
  createdAt : String := ""
  updatedAt : String := ""
deriving Repr, DecidableEq

/-- Go: type Section struct. -/
structure Section where
  id : String
  name : String := ""
  title : String := ""
  image : String := ""
  bgImage : String := ""
  paragraphs : List SectionParagraph := []
  services : List SectionService := []
  createdAt : String := ""
  updatedAt : String := ""
deriving Repr, DecidableEq

/-- sectionChanged (sections.go lines 529-534). -/
def sectionChanged (current updated : Section) : Bool :=
  current.name ≠ updated.name ∨
  current.title ≠ updated.title ∨
  current.image ≠ updated.image ∨
  current.bgImage ≠ updated.bgImage

/-- paragraphChanged (lines 536-539). -/
def paragraphChanged (current updated : SectionParagraph) : Bool :=
  current.order ≠ updated.order ∨ current.content ≠ updated.content

/-- serviceChanged (lines 541-545). -/
def serviceChanged (current updated : SectionService) : Bool :=
  current.title ≠ updated.title ∨
  current.price ≠ updated.price ∨
  current.description ≠ updated.description

/-- serviceItemChanged (lines 547-552). -/
def serviceItemChanged (current updated : SectionServiceItem) : Bool :=
  current.order ≠ updated.order ∨
  current.price ≠ updated.price ∨
  current.content ≠ updated.content ∨
  current.contentAsList ≠ updated.contentAsList

/-- findParagraphByID: first paragraph with the given id, nil when absent. -/
def findParagraphByID (paragraphs : List SectionParagraph) (id : String) :
    Option SectionParagraph :=
  paragraphs.find? (fun p => p.id = id)

/-- findServiceByID: first service with the given id, nil when absent. -/
def findServiceByID (services : List SectionService) (id : String) :
    Option SectionService :=
  services.find? (fun s => s.id = id)

/-- findServiceItemByID: first item with the given id, nil when absent. -/
def findServiceItemByID (items : List SectionServiceItem) (id : String) :
    Option SectionServiceItem :=
  items.find? (fun i => i.id = id)

/-- A mutation statement emitted by UpdateSection / UpdateSectionWithAdditions.
INSERT statements omit the freshly generated UUID and creation timestamp
(both nondeterministic in the source). -/
inductive SectionStmt where
  | updateSection (id name title image bgImage : String)
  | updateParagraph (id : String) (order : Int) (content : String)
  | updateService (id title : String) (price : Int) (description : String)
  | updateServiceItem (id : String) (order : Int) (price : Int)
      (content : String) (contentAsList : Bool)
  | insertParagraph (sectionID : String) (order : Int) (content : String)
  | insertService (sectionID title : String) (price : Int) (description : String)
  | insertServiceItem (order : Int) (price : Int) (content : String)
      (contentAsList : Bool)
deriving Repr, DecidableEq

/-- UpdateSection, paragraph loop body (lines 445-468): no match in the current
snapshot means skip; a match emits one UPDATE only when changed. -/
def paragraphUpdateStmts (current : List SectionParagraph) (p : SectionParagraph) :
    List SectionStmt :=
  match findParagraphByID current p.id with
  | none => []
  | some c =>
    if paragraphChanged c p then [.updateParagraph p.id p.order p.content] else []

/-- UpdateSection, service-item loop body (lines 497-522), compared against the
matched current service's items. -/
def serviceItemUpdateStmts (currentItems : List SectionServiceItem)
    (it : SectionServiceItem) : List SectionStmt :=
  match findServiceItemByID currentItems it.id with
  | none => []
  | some c =>
    if serviceItemChanged c it then
      [.updateServiceItem it.id it.order it.price it.content it.contentAsList]
    else []

/-- UpdateSection, service loop body (lines 471-523): an unmatched service is
skipped entirely, items included. -/
def serviceUpdateStmts (currentServices : List SectionService)
    (s : SectionService) : List SectionStmt :=
  match findServiceByID currentServices s.id with
  | none => []
  | some c =>
    (if serviceChanged c s then
      [.updateService s.id s.title s.price s.description]
    else []) ++
    s.items.flatMap (fun it => serviceItemUpdateStmts c.items it)

/-- The full list of mutation statements UpdateSection (lines 403-526) executes
inside its transaction, given the current persisted snapshot and the incoming
aggregate. -/
def updateSectionStmts (current incoming : Section) : List SectionStmt :=
  (if sectionChanged current incoming then
    [.updateSection incoming.id incoming.name incoming.title incoming.image incoming.bgImage]
  else []) ++
  incoming.paragraphs.flatMap (fun p => paragraphUpdateStmts current.paragraphs p) ++
  incoming.services.flatMap (fun s => serviceUpdateStmts current.services s)

/-- UpdateSectionWithAdditions, paragraph loop body (lines 1175-1223):
a non-empty id with no match is skipped; an empty id is a new paragraph and
is inserted. -/
def paragraphUpdateStmtsWithAdditions (sectionID : String)
    (current : List SectionParagraph) (p : SectionParagraph) : List SectionStmt :=
  if p.id ≠ "" then
    match findParagraphByID current p.id with
    | none => []
    | some c =>
      if paragraphChanged c p then [.updateParagraph p.id p.order p.content] else []
  else
    [.insertParagraph sectionID p.order p.content]

/-- UpdateSectionWithAdditions, item loop body for an existing service
(lines 1254-1306). -/
def serviceItemUpdateStmtsWithAdditions (currentItems : List SectionServiceItem)
    (it : SectionServiceItem) : List SectionStmt :=
  if it.id ≠ "" then
    match findServiceItemByID currentItems it.id with
    | none => []
    | some c =>
      if serviceItemChanged c it then
        [.updateServiceItem it.id it.order it.price it.content it.contentAsList]
      else []
  else
    [.insertServiceItem it.order it.price it.content it.contentAsList]

/-- UpdateSectionWithAdditions, service loop body (lines 1226-1357): a non-empty
unmatched id is skipped with all its items; an empty id inserts the service
plus all its items. -/
def serviceUpdateStmtsWithAdditions (sectionID : String)
    (currentServices : List SectionService) (s : SectionService) : List SectionStmt :=
  if s.id ≠ "" then
    match findServiceByID currentServices s.id with
    | none => []
    | some c =>
      (if serviceChanged c s then
        [.updateService s.id s.title s.price s.description]
      else []) ++
      s.items.flatMap (fun it => serviceItemUpdateStmtsWithAdditions c.items it)
  else
    [.insertService sectionID s.title s.price s.description] ++
    s.items.map (fun it => .insertServiceItem it.order it.price it.content it.contentAsList)

/-- The full list of mutation statements UpdateSectionWithAdditions
(lines 1133-1360) executes, given the current snapshot and the incoming
aggregate. -/
def updateSectionWithAdditionsStmts (current incoming : Section) : List SectionStmt :=
  (if sectionChanged current incoming then
    [.updateSection incoming.id incoming.name incoming.title incoming.image incoming.bgImage]
  else []) ++
  incoming.paragraphs.flatMap
    (fun p => paragraphUpdateStmtsWithAdditions incoming.id current.paragraphs p) ++
  incoming.services.flatMap
    (fun s => serviceUpdateStmtsWithAdditions incoming.id current.services s)

/-! ## Row scanning / result materialization

pgx row scanning is modelled by a sum type of column values and positional
destination lists.  pgx fails a Scan whose destination count differs from the
column count of the query, which is what the length patterns below encode;
each destination also checks the value against its Go type. -/

/-- A database column value as handed to Scan. -/
inductive DBValue where
  | null
  | str (s : String)
  | int (n : Int)
  | bool (b : Bool)
  | strArr (xs : List String)
  | num (q : Rat)
deriving Repr, DecidableEq

/-- Scan into a Go string destination. -/
def DBValue.asStr : DBValue → Except String String
  | .str s => .ok s
  | _ => .error "cannot scan into string"

/-- Scan into a sql.NullString destination. -/
def DBValue.asNullStr : DBValue → Except String (Option String)
  | .null => .ok none
  | .str s => .ok (some s)
  | _ => .error "cannot scan into NullString"

/-- Scan into a Go bool destination. -/
def DBValue.asBool : DBValue → Except String Bool
  | .bool b => .ok b
  | _ => .error "cannot scan into bool"

/-- Scan into a Go int destination. -/
def DBValue.asInt : DBValue → Except String Int
  | .int n => .ok n
  | _ => .error "cannot scan into int"

/-- Scan into a []string destination. -/
def DBValue.asStrArr : DBValue → Except String (List String)
  | .strArr xs => .ok xs
  | _ => .error "cannot scan into string slice"

/-- Scan into a float32 destination (the search_rank column is either a
ts_rank float or the integer constant 0). -/
def DBValue.asNum : DBValue → Except String Rat
  | .num q => .ok q
  | .int n => .ok (n : Rat)
  | _ => .error "cannot scan into float"

/-- Go: type Product struct (internal/db products file). -/
structure Product where
  id : String := ""
  name : String := ""
  slug : String := ""
  description : String := ""
  longDescription : String := ""
  price : Rat := 0
  unit : String := ""
  quantity : Int := 0
  mainImg : String := ""
  mainImgID : String := ""
  gallery : List String := []
  galleryIDs : List String := []
  category : String := ""
  categoryID : String := ""
  available : Bool := false
  qrcodeFilename : String := ""
deriving Repr, DecidableEq

/-- The column list of the FilterProducts data query (selectQuery, lines
576-585): twelve explicit columns plus the search_rank column appended by
buildSearchRankSelect. -/
def productSelectColumns : List String :=
  ["prod.id", "prod.name", "prod.description", "prod.long_description",
   "ctg.id", "ctg.name", "img.filename", "prod.available", "prod.quantity",
   "prod.qrcode_filename", "prod.slug", "images", "search_rank"]

/-- scanProducts, one row (lines 723-781).  The includeRank branch supplies 13
destinations; the other branch supplies only 12 (long_description has none),
so it fails on any 13-column row.  After scanning, the nullable main_img and
long_description and the images array are folded into the Product exactly as
in the Go epilogue (lines 769-779). -/
def scanProductRow (includeRank : Bool) (row : List DBValue) : Except String Product :=
  if includeRank then
    match row with
    | [vid, vname, vdesc, vlongDesc, vctgID, vctg, vmainImg, vavail, vqty, vqr, vslug,
       vimgs, vrank] => do
      let id ← vid.asStr
      let name ← vname.asStr
      let desc ← vdesc.asStr
      let longDesc ← vlongDesc.asNullStr
      let ctgID ← vctgID.asStr
      let ctg ← vctg.asStr
      let mainImg ← vmainImg.asNullStr
      let avail ← vavail.asBool
      let qty ← vqty.asInt
      let qr ← vqr.asStr
      let slug ← vslug.asStr
      let imgs ← vimgs.asStrArr
      let _rank ← vrank.asNum
      .ok { id := id, name := name, description := desc
            longDescription := match longDesc with | some s => s | none => desc
            categoryID := ctgID, category := ctg
            mainImg := match mainImg with | some s => s | none => ""
            available := avail, quantity := qty, qrcodeFilename := qr, slug := slug
            gallery := if imgs.length > 0 then imgs else [] }
    | _ => .error "failed to scan product with rank"
  else
    match row with
    | [vid, vname, vdesc, vctgID, vctg, vmainImg, vavail, vqty, vqr, vslug,
       vimgs, vrank] => do
      let id ← vid.asStr
      let name ← vname.asStr
      let desc ← vdesc.asStr
      let ctgID ← vctgID.asStr
      let ctg ← vctg.asStr
      let mainImg ← vmainImg.asNullStr
      let avail ← vavail.asBool
      let qty ← vqty.asInt
      let qr ← vqr.asStr
      let slug ← vslug.asStr
      let imgs ← vimgs.asStrArr
      let _rank ← vrank.asNum
      .ok { id := id, name := name, description := desc
            longDescription := desc
            categoryID := ctgID, category := ctg
            mainImg := match mainImg with | some s => s | none => ""
            available := avail, quantity := qty, qrcodeFilename := qr, slug := slug
            gallery := if imgs.length > 0 then imgs else [] }
    | _ => .error "failed to scan product"

/-- scanProducts (lines 720-789): scan every row, aborting on the first error. -/
def scanProducts : List (List DBValue) → Bool → Except String (List Product)
  | [], _ => .ok []
  | row :: rest, includeRank => do
    let p ← scanProductRow includeRank row
    let ps ← scanProducts rest includeRank
    .ok (p :: ps)

/-- The scan phase of FilterProducts (line 595): rank destinations are used
exactly when the normalized SearchMode is fulltext. -/
def filterProductsScan (filters : ProductFilterParams) (rows : List (List DBValue)) :
    Except String (List Product) :=
  let f := normalizeProductFilters filters
  scanProducts rows (f.searchMode = SearchModeFullText)

/-- Go: type CatalogProd struct (catalog products file). -/
structure CatalogProd where
  id : String := ""
  name : String := ""
  slug : String := ""
  description : String := ""
  longDescription : String := ""
  categoryName : String := ""
  categoryID : String := ""
  imageURL : String := ""
  images : List String := []
  available : Bool := false
  quantity : Int := 0
deriving Repr, DecidableEq

/-- The column list of the FilterCatalogProducts data query: eleven explicit
catalog_products columns plus search_rank. -/
def catalogProductSelectColumns : List String :=
  ["id", "name", "description", "long_description", "category_id",
   "category_name", "image_url", "available", "images", "slug", "quantity",
   "search_rank"]

/-- scanCatalogProducts, one row (lines 886-940).  Both branches supply twelve
destinations; after scanning, the read-time business correction forces
Available to false whenever Quantity <= 0 (lines 935-937). -/
def scanCatalogProductRow (includeRank : Bool) (row : List DBValue) :
    Except String CatalogProd :=
  match row with
  | [vid, vname, vdesc, vlongDesc, vctgID, vctgName, vimgURL, vavail, vimgs,
     vslug, vqty, vrank] => do
    let id ← vid.asStr
    let name ← vname.asStr
    let desc ← vdesc.asStr
    let longDesc ← vlongDesc.asStr
    let ctgID ← vctgID.asStr
    let ctgName ← vctgName.asStr
    let imgURL ← vimgURL.asStr
    let avail ← vavail.asBool
    let imgs ← vimgs.asStrArr
    let slug ← vslug.asStr
    let qty ← vqty.asInt
    let _rank ← vrank.asNum
    .ok { id := id, name := name, description := desc, longDescription := longDesc
          categoryID := ctgID, categoryName := ctgName, imageURL := imgURL
          images := imgs, slug := slug, quantity := qty
          available := if qty ≤ 0 then false else avail }
  | _ =>
    .error (if includeRank then "failed to scan product with rank"
            else "failed to scan product")

/-- scanCatalogProducts (lines 883-947): scan every row, aborting on the first
error. -/
def scanCatalogProducts : List (List DBValue) → Bool → Except String (List CatalogProd)
  | [], _ => .ok []
  | row :: rest, includeRank => do
    let p ← scanCatalogProductRow includeRank row
    let ps ← scanCatalogProducts rest includeRank
    .ok (p :: ps)

/-! ## Concrete fixtures used by witnesses -/

/-- A sample persisted service item. -/
def sampleItem : SectionServiceItem :=
  { id := "i1", serviceID := "s1", order := 1, price := 100, content := "a" }

/-- A sample persisted service owning one item. -/
def sampleService : SectionService :=
  { id := "s1", sectionID := "sec1", title := "T", price := 5, description := "d",
    items := [sampleItem] }

/-- A sample persisted paragraph. -/
def samplePara : SectionParagraph :=
  { id := "p1", sectionID := "sec1", order := 0, content := "c" }

/-- A sample persisted section aggregate. -/
def sampleSection : Section :=
  { id := "sec1", name := "n", title := "t", image := "", bgImage := "",
    paragraphs := [samplePara], services := [sampleService] }

/-- A paragraph whose identity matches nothing in sampleSection. -/
def orphanPara : SectionParagraph :=
  { id := "zz", order := 9, content := "x" }

/-- A service whose identity matches nothing in sampleSection. -/
def orphanService : SectionService :=
  { id := "zs", title := "Z" }

/-! ## Shared helper lemmas -/

/-- Field-wise characterization of the FilterProducts normalization prologue. -/
theorem normalizeProductFilters_eq (f : ProductFilterParams) :
    normalizeProductFilters f =
      { f with
        page := if f.page < 1 then 1 else f.page
        limit := if f.limit < 1 ∨ 100 < f.limit then 20 else f.limit
        searchMode := if f.searchMode = "" then SearchModeFullText else f.searchMode } := by
  unfold normalizeProductFilters
  dsimp only
  split_ifs <;> simp_all

/-- Field-wise characterization of the FilterSections normalization prologue. -/
theorem normalizeSectionFilters_eq (f : SectionFilterParams) :
    normalizeSectionFilters f =
      { f with
        page := if f.page < 1 then 1 else f.page
        limit := if f.limit < 1 ∨ 100 < f.limit then 20 else f.limit
        searchMode := if f.searchMode = "" then SearchModeFullText else f.searchMode } := by
  unfold normalizeSectionFilters
  dsimp only
  split_ifs <;> simp_all

/-- The rational ceiling used to model int(math.Ceil(float64(t)/float64(l)))
agrees with integer ceiling division for a positive divisor. -/
theorem ceil_ratCast_div (t l : Int) (hl : 0 < l) :
    ⌈(t : ℚ) / (l : ℚ)⌉ = (t + l - 1) / l := by
  have hl0 : (0 : ℚ) < (l : ℚ) := by exact_mod_cast hl
  set q : Int := (t + l - 1) / l with hq
  have hA : q * l ≤ t + l - 1 := by
    have := Int.ediv_mul_le (t + l - 1) (ne_of_gt hl)
    simpa [hq] using this
  have hB : t + l - 1 < q * l + l := by
    have := Int.lt_ediv_add_one_mul_self (t + l - 1) hl
    calc t + l - 1 < ((t + l - 1) / l + 1) * l := this
    _ = q * l + l := by rw [hq]; ring
  rw [Int.ceil_eq_iff]
  constructor
  · rw [lt_div_iff₀ hl0]
    have h1 : (q - 1) * l < t := by nlinarith [hA]
    calc ((q : ℚ) - 1) * l = ((((q - 1) * l : Int)) : ℚ) := by push_cast; ring
    _ < (t : ℚ) := by exact_mod_cast h1
  · rw [div_le_iff₀ hl0]
    have h2 : t - 1 < q * l := by linarith [hB]
    have h3 : t ≤ q * l := by simpa using Int.lt_iff_add_one_le.mp h2
    calc (t : ℚ) ≤ (((q * l : Int)) : ℚ) := by exact_mod_cast h3
    _ = (q : ℚ) * l := by push_cast; ring

/-- The normalized product limit is always in [1, 100]. -/
theorem normalizeProductFilters_limit_bounds (f : ProductFilterParams) :
    1 ≤ (normalizeProductFilters f).limit ∧ (normalizeProductFilters f).limit ≤ 100 := by
  rw [normalizeProductFilters_eq]
  dsimp only
  split_ifs <;> omega

/-- The normalized section limit is always in [1, 100]. -/
theorem normalizeSectionFilters_limit_bounds (f : SectionFilterParams) :
    1 ≤ (normalizeSectionFilters f).limit ∧ (normalizeSectionFilters f).limit ≤ 100 := by
  rw [normalizeSectionFilters_eq]
  dsimp only
  split_ifs <;> omega

/-! ## Claim theorems -/

/-- C1 counterexample: FilterProducts does not clamp an out-of-range limit to
the boundary of [1, 100]; it resets it to the default 20.  Input limit 150
yields limit 20 (not the resource max 100), and input limit 0 yields 20
(not 1). -/
theorem pagination_limit_reset_counterexample :
    (normalizeProductFilters { limit := 150 : ProductFilterParams }).limit = 20 ∧
    ¬(normalizeProductFilters { limit := 150 : ProductFilterParams }).limit = 100 ∧
    (normalizeProductFilters { limit := 0 : ProductFilterParams }).limit = 20 ∧
    ¬(normalizeProductFilters { limit := 0 : ProductFilterParams }).limit = 1 := by
  refine ⟨rfl, by decide, rfl, by decide⟩

/-- C1 (amended): before query execution FilterProducts and FilterSections
normalize page to at least 1 (keeping an in-range page), keep an in-range
limit, and RESET an out-of-range limit (limit < 1 or limit > 100) to the
default 20 rather than clamping it to the nearest bound; the offset used is
(page - 1) * limit over the normalized values. -/
theorem pagination_normalization (f : ProductFilterParams) (g : SectionFilterParams) :
    1 ≤ (normalizeProductFilters f).page ∧
    (1 ≤ f.page → (normalizeProductFilters f).page = f.page) ∧
    1 ≤ (normalizeProductFilters f).limit ∧ (normalizeProductFilters f).limit ≤ 100 ∧
    (1 ≤ f.limit ∧ f.limit ≤ 100 → (normalizeProductFilters f).limit = f.limit) ∧
    ((f.limit < 1 ∨ 100 < f.limit) → (normalizeProductFilters f).limit = 20) ∧
    productFilterOffset f =
      ((normalizeProductFilters f).page - 1) * (normalizeProductFilters f).limit ∧
    1 ≤ (normalizeSectionFilters g).page ∧
    (1 ≤ g.page → (normalizeSectionFilters g).page = g.page) ∧
    1 ≤ (normalizeSectionFilters g).limit ∧ (normalizeSectionFilters g).limit ≤ 100 ∧
    (1 ≤ g.limit ∧ g.limit ≤ 100 → (normalizeSectionFilters g).limit = g.limit) ∧
    ((g.limit < 1 ∨ 100 < g.limit) → (normalizeSectionFilters g).limit = 20) ∧
    sectionFilterOffset g =
      ((normalizeSectionFilters g).page - 1) * (normalizeSectionFilters g).limit := by
  refine ⟨?_, ?_, ?_, ?_, ?_, ?_, rfl, ?_, ?_, ?_, ?_, ?_, ?_, rfl⟩ <;>
    simp only [normalizeProductFilters_eq, normalizeSectionFilters_eq] <;>
    split_ifs <;> omega

/-- Witness for C1 at concrete inputs: limit 150 resets to 20 for products and
limit 0 resets to 20 for sections. -/
theorem pagination_normalization_witness :
    (normalizeProductFilters { limit := 150 : ProductFilterParams }).limit = 20 ∧
    (normalizeSectionFilters { limit := 0 : SectionFilterParams }).limit = 20 := by
  obtain ⟨-, -, -, -, -, h1, -, -, -, -, -, -, h2, -⟩ :=
    pagination_normalization { limit := 150 : ProductFilterParams }
      { limit := 0 : SectionFilterParams }
  exact ⟨h1 (by decide), h2 (by decide)⟩

/-- C6: for both filter calls the returned metadata satisfies
totalPages = ceil(total/limit) (equivalently the integer formula
(total + limit - 1) / limit; 0 when total = 0), hasNext iff page < totalPages,
hasPrevious iff page > 1; and at limit 2 and total 5, page 1 gives
totalPages 3, hasNext true, hasPrevious false while page 3 gives hasNext
false, hasPrevious true. -/
theorem filter_page_metadata (f : ProductFilterParams) (g : SectionFilterParams)
    (total : Int) (ht : 0 ≤ total) :
    (buildProductFilterMeta f total).totalPages =
      (total + (buildProductFilterMeta f total).limit - 1) /
        (buildProductFilterMeta f total).limit ∧
    (total = 0 → (buildProductFilterMeta f total).totalPages = 0) ∧
    ((buildProductFilterMeta f total).hasNext = true ↔
      (buildProductFilterMeta f total).page < (buildProductFilterMeta f total).totalPages) ∧
    ((buildProductFilterMeta f total).hasPrevious = true ↔
      1 < (buildProductFilterMeta f total).page) ∧
    (buildSectionFilterMeta g total).totalPages =
      (total + (buildSectionFilterMeta g total).limit - 1) /
        (buildSectionFilterMeta g total).limit ∧
    (total = 0 → (buildSectionFilterMeta g total).totalPages = 0) ∧
    ((buildSectionFilterMeta g total).hasNext = true ↔
      (buildSectionFilterMeta g total).page < (buildSectionFilterMeta g total).totalPages) ∧
    ((buildSectionFilterMeta g total).hasPrevious = true ↔
      1 < (buildSectionFilterMeta g total).page) ∧
    buildProductFilterMeta { page := 1, limit := 2 : ProductFilterParams } 5 =
      { total := 5, page := 1, limit := 2, totalPages := 3,
        hasNext := true, hasPrevious := false } ∧
    buildProductFilterMeta { page := 3, limit := 2 : ProductFilterParams } 5 =
      { total := 5, page := 3, limit := 2, totalPages := 3,
        hasNext := false, hasPrevious := true } := by
  obtain ⟨hp1, hp2⟩ := normalizeProductFilters_limit_bounds f
  obtain ⟨hs1, hs2⟩ := normalizeSectionFilters_limit_bounds g
  have hc : (⌈((5 : Int) : ℚ) / (((2 : Int)) : ℚ)⌉ : Int) = 3 := by
    rw [ceil_ratCast_div 5 2 (by norm_num)]
    decide
  have hn1 : normalizeProductFilters { page := 1, limit := 2 : ProductFilterParams } =
      { page := 1, limit := 2, searchMode := SearchModeFullText } := by decide
  have hn3 : normalizeProductFilters { page := 3, limit := 2 : ProductFilterParams } =
      { page := 3, limit := 2, searchMode := SearchModeFullText } := by decide
  refine ⟨?_, ?_, ?_, ?_, ?_, ?_, ?_, ?_, ?_, ?_⟩
  · exact ceil_ratCast_div total _ (by omega)
  · intro h
    subst h
    simp only [buildProductFilterMeta]
    rw [ceil_ratCast_div 0 _ (by omega)]
    have h0 : (0 : Int) + (normalizeProductFilters f).limit - 1 =
        (normalizeProductFilters f).limit - 1 := by ring
    rw [h0]
    exact Int.ediv_eq_zero_of_lt (by omega) (by omega)
  · simp [buildProductFilterMeta]
  · simp [buildProductFilterMeta]
  · exact ceil_ratCast_div total _ (by omega)
  · intro h
    subst h
    simp only [buildSectionFilterMeta]
    rw [ceil_ratCast_div 0 _ (by omega)]
    have h0 : (0 : Int) + (normalizeSectionFilters g).limit - 1 =
        (normalizeSectionFilters g).limit - 1 := by ring
    rw [h0]
    exact Int.ediv_eq_zero_of_lt (by omega) (by omega)
  · simp [buildSectionFilterMeta]
  · simp [buildSectionFilterMeta]
  · simp only [buildProductFilterMeta, hn1]
    rw [hc]
    rfl
  · simp only [buildProductFilterMeta, hn3]
    rw [hc]
    rfl

/-- Witness for C6 at a concrete input: the default filters with total 5 give
totalPages 1 via the integer ceiling formula. -/
theorem filter_page_metadata_witness :
    0 ≤ (5 : Int) ∧
    (buildProductFilterMeta ({} : ProductFilterParams) 5).totalPages =
      (5 + (buildProductFilterMeta ({} : ProductFilterParams) 5).limit - 1) /
        (buildProductFilterMeta ({} : ProductFilterParams) 5).limit :=
  ⟨by norm_num,
   (filter_page_metadata ({} : ProductFilterParams) ({} : SectionFilterParams) 5
      (by norm_num)).1⟩

/-! ### Cart helper lemmas -/

/-- Membership is preserved downward by removeFirstItem. -/
theorem mem_removeFirstItem {l : List CartItem} {p : String} {i : CartItem}
    (h : i ∈ removeFirstItem l p) : i ∈ l := by
  induction l with
  | nil => simpa [removeFirstItem] using h
  | cons a rest ih =>
    by_cases ha : a.productID = p
    · simp only [removeFirstItem, if_pos ha] at h
      exact List.mem_cons_of_mem a h
    · simp only [removeFirstItem, if_neg ha, List.mem_cons] at h
      rcases h with h | h
      · exact h ▸ List.mem_cons_self a rest
      · exact List.mem_cons_of_mem a (ih h)

/-- With distinct product ids, no line matching p survives removeFirstItem. -/
theorem removeFirstItem_no_match {l : List CartItem} {p : String}
    (hnd : (l.map (fun i => i.productID)).Nodup) :
    ∀ i ∈ removeFirstItem l p, i.productID ≠ p := by
  induction l with
  | nil => simp [removeFirstItem]
  | cons a rest ih =>
    simp only [List.map_cons, List.nodup_cons] at hnd
    by_cases ha : a.productID = p
    · simp only [removeFirstItem, if_pos ha]
      intro i hi hip
      exact hnd.1 (ha ▸ hip ▸ List.mem_map_of_mem (fun x => x.productID) hi)
    · simp only [removeFirstItem, if_neg ha]
      intro i hi
      rcases List.mem_cons.mp hi with h | h
      · exact h ▸ ha
      · exact ih hnd.2 i h

/-- updateQtyFirst rewrites exactly the first matching line, clamping to its
MaxQty. -/
theorem updateQtyFirst_find (l : List CartItem) (p : String) (q : Int)
    (j : CartItem) (hj : l.find? (fun i => i.productID = p) = some j) :
    (updateQtyFirst l p q).find? (fun i => i.productID = p) =
      some { j with quantity := min q j.maxQty } := by
  induction l with
  | nil => simp [List.find?] at hj
  | cons a rest ih =>
    by_cases ha : a.productID = p
    · have hpa : p = a.productID := ha.symm
      have hja : a = j := by
        have h2 := hj
        rw [List.find?_cons_of_pos _ (by simpa using ha)] at h2
        exact Option.some.inj h2
      subst hja
      simp only [updateQtyFirst, if_pos hpa]
      rw [List.find?_cons_of_pos _ (by simpa using ha)]
    · have hpa : ¬ p = a.productID := fun h => ha h.symm
      have hj2 : rest.find? (fun i => i.productID = p) = some j := by
        have := hj
        rwa [List.find?_cons_of_neg _ (by simpa using ha)] at this
      simp only [updateQtyFirst, if_neg hpa]
      rw [List.find?_cons_of_neg _ (by simpa using ha)]
      exact ih hj2

/-- Lines produced by updateQtyFirst either survive untouched or are the
clamped first match; the invariant is preserved when the new quantity is
positive. -/
theorem cartLinesInv_updateQtyFirst {l : List CartItem} {p : String} {q : Int}
    (hinv : CartLinesInv l) (hq : 0 < q) : CartLinesInv (updateQtyFirst l p q) := by
  induction l with
  | nil => intro i hi; simpa [updateQtyFirst] using hi
  | cons a rest ih =>
    have ha := hinv a (List.mem_cons_self a rest)
    have hrest : CartLinesInv rest := fun i hi => hinv i (List.mem_cons_of_mem a hi)
    by_cases hpa : p = a.productID
    · simp only [updateQtyFirst, if_pos hpa]
      intro i hi
      rcases List.mem_cons.mp hi with h | h
      · subst h
        refine ⟨lt_min hq ha.2.2, min_le_right _ _, ha.2.2⟩
      · exact hrest i h
    · simp only [updateQtyFirst, if_neg hpa]
      intro i hi
      rcases List.mem_cons.mp hi with h | h
      · exact h ▸ ha
      · exact ih hrest i h

/-- The invariant is preserved by every cart operation other than AddItem. -/
theorem cartLinesInv_applyCartOp {c : Cart} {op : CartOp}
    (hinv : CartLinesInv c.items) (hop : ∀ item, op ≠ CartOp.add item) :
    CartLinesInv (applyCartOp c op).items := by
  cases op with
  | add item => exact absurd rfl (hop item)
  | update itemID quantity =>
    simp only [applyCartOp, Cart.updateItemQty]
    by_cases hq : quantity ≤ 0
    · simp only [if_pos hq, Cart.removeItem]
      by_cases hnil : c.items = []
      · rw [if_pos hnil]
        exact hinv
      · rw [if_neg hnil]
        intro i hi
        exact hinv i (mem_removeFirstItem hi)
    · simp only [if_neg hq]
      exact cartLinesInv_updateQtyFirst hinv (by omega)
  | remove itemID =>
    simp only [applyCartOp, Cart.removeItem]
    by_cases hnil : c.items = []
    · rw [if_pos hnil]
      exact hinv
    · rw [if_neg hnil]
      intro i hi
      exact hinv i (mem_removeFirstItem hi)
  | clear =>
    simp only [applyCartOp, Cart.clearCart]
    intro i hi
    simp at hi

/-- The invariant is preserved by any AddItem-free operation sequence. -/
theorem cartLinesInv_applyCartOps {c : Cart} {ops : List CartOp}
    (hinv : CartLinesInv c.items) (hops : ∀ op ∈ ops, ∀ item, op ≠ CartOp.add item) :
    CartLinesInv (applyCartOps c ops).items := by
  induction ops generalizing c with
  | nil => simpa [applyCartOps] using hinv
  | cons op rest ih =>
    have h1 : CartLinesInv (applyCartOp c op).items :=
      cartLinesInv_applyCartOp hinv (hops op (List.mem_cons_self op rest))
    have h2 : ∀ o ∈ rest, ∀ item, o ≠ CartOp.add item :=
      fun o ho => hops o (List.mem_cons_of_mem op ho)
    simpa [applyCartOps] using ih h1 h2

/-! ### Claim theorems: cart -/

/-- C10: NewCart indexes id[0] unconditionally, so a call with zero arguments
is an out-of-bounds access (modelled as none); with at least one id it
returns a cart with an empty line list, an empty pending-removal set, and
isNew = true. -/
theorem newCart_variadic_safety :
    (∀ gen, NewCart gen [] = none) ∧
    (∀ gen id rest, ∃ c, NewCart gen (id :: rest) = some c ∧
      c.items = [] ∧ c.removedItems = [] ∧ c.isNew = true) :=
  ⟨fun _ => rfl, fun _ _ _ => ⟨_, rfl, rfl, rfl, rfl⟩⟩

/-- C9: for a product reference present in the line list, UpdateItemQty with a
non-positive quantity removes the line and records the reference in the
pending-removal set, and with a positive quantity sets the line quantity to
min(qty, MaxQty). -/
theorem updateItemQty_spec (c : Cart) (p : String) (qty : Int)
    (hmem : ∃ i ∈ c.items, i.productID = p)
    (hnd : (c.items.map (fun i => i.productID)).Nodup) :
    (qty ≤ 0 → p ∈ (c.updateItemQty p qty).removedItems ∧
      ∀ i ∈ (c.updateItemQty p qty).items, i.productID ≠ p) ∧
    (0 < qty → (c.updateItemQty p qty).getItemQuantity p =
      min qty (c.getItemMaxQty p)) := by
  obtain ⟨j, hjmem, hjid⟩ := hmem
  have hfind : (c.items.find? (fun i => i.productID = p)).isSome := by
    rw [List.find?_isSome]
    exact ⟨j, hjmem, by simpa using hjid⟩
  obtain ⟨k, hk⟩ := Option.isSome_iff_exists.mp hfind
  constructor
  · intro hq
    simp only [Cart.updateItemQty, if_pos hq, Cart.removeItem]
    have hnil : ¬ c.items = [] := by
      intro h
      rw [h] at hjmem
      simp at hjmem
    constructor
    · simp only [if_neg hnil]
      simp
    · simp only [if_neg hnil]
      intro i hi
      exact removeFirstItem_no_match hnd i hi
  · intro hq
    have hq2 : ¬ qty ≤ 0 := by omega
    simp only [Cart.updateItemQty, if_neg hq2, Cart.getItemQuantity, Cart.getItemMaxQty]
    rw [updateQtyFirst_find c.items p qty k hk, hk]

/-- Witness for C9: on a one-line cart with MaxQty 10, UpdateItemQty to 999
clamps the quantity to 10, and UpdateItemQty to 0 removes the line. -/
theorem updateItemQty_spec_witness :
    (((Cart.mk "c1" "" "" "" [] "" false [] [] true).addItem
      { productID := "p1", quantity := 3, maxQty := 10 }).updateItemQty
        "p1" 999).getItemQuantity "p1" = 10 ∧
    "p1" ∈ (((Cart.mk "c1" "" "" "" [] "" false [] [] true).addItem
      { productID := "p1", quantity := 3, maxQty := 10 }).updateItemQty
        "p1" 0).removedItems := by
  constructor
  · have h := (updateItemQty_spec
      ((Cart.mk "c1" "" "" "" [] "" false [] [] true).addItem
        { productID := "p1", quantity := 3, maxQty := 10 })
      "p1" 999 ⟨{ productID := "p1", quantity := 3, maxQty := 10 }, by decide, rfl⟩
      (by decide)).2 (by norm_num)
    rw [h]
    decide
  · exact ((updateItemQty_spec
      ((Cart.mk "c1" "" "" "" [] "" false [] [] true).addItem
        { productID := "p1", quantity := 3, maxQty := 10 })
      "p1" 0 ⟨{ productID := "p1", quantity := 3, maxQty := 10 }, by decide, rfl⟩
      (by decide)).1 (by norm_num)).1

/-- C4 counterexample: AddItem performs no clamping, so a single AddItem of
quantity 999 against a max-stock bound of 10 followed by Save persists a line
with quantity 999 > 10 (the claimed bound fails). -/
theorem cart_persist_bound_counterexample :
    (NewCart "g" ["c1"]).map (fun c =>
      ((c.addItem { productID := "p1", quantity := 999, maxQty := 10 }).saveItemUpserts.map
        (fun l => l.quantity))) = some [999] ∧ ¬ (999 : Int) ≤ 10 :=
  ⟨rfl, by norm_num⟩

/-- C4 (amended): for sequences of UpdateItemQty, RemoveItem and ClearCart
(AddItem excluded, since it merges and appends quantities unclamped) starting
from a cart whose lines satisfy the stock invariant, every line persisted by
Save has quantity strictly positive and at most the MaxQty of the in-memory
line it was produced from. -/
theorem cart_persist_bound_no_add (c : Cart) (ops : List CartOp)
    (hinv : CartLinesInv c.items)
    (hops : ∀ op ∈ ops, ∀ item, op ≠ CartOp.add item) :
    ∀ l ∈ (applyCartOps c ops).saveItemUpserts,
      0 < l.quantity ∧ ∃ i ∈ (applyCartOps c ops).items,
        l.productID = i.productID ∧ l.quantity = i.quantity ∧ l.quantity ≤ i.maxQty := by
  have hres : CartLinesInv (applyCartOps c ops).items :=
    cartLinesInv_applyCartOps hinv hops
  intro l hl
  simp only [Cart.saveItemUpserts] at hl
  by_cases hitems : "items" ∈ (applyCartOps c ops).updatedFields
  · rw [if_pos hitems] at hl
    obtain ⟨i, hi, hli⟩ := List.mem_map.mp hl
    obtain ⟨h1, h2, h3⟩ := hres i hi
    refine ⟨?_, i, hi, ?_, ?_, ?_⟩ <;> simp [← hli, h1, h2]
  · rw [if_neg hitems] at hl
    simp at hl

/-- Witness for C4 (amended) at a concrete input: a one-line cart with
quantity 2 of max 10, after UpdateItemQty to 7 and Save, persists the line
with quantity 7, which is positive and within the line's MaxQty. -/
theorem cart_persist_bound_no_add_witness :
    0 < ({ cartID := "c1", productID := "p1", quantity := 7, source := "" } :
      PersistedLine).quantity ∧
    ∃ i ∈ (applyCartOps
      (Cart.mk "c1" "" "" ""
        [{ productID := "p1", quantity := 2, maxQty := 10 }] "" false ["items"] [] false)
      [CartOp.update "p1" 7]).items,
      ({ cartID := "c1", productID := "p1", quantity := 7, source := "" } :
        PersistedLine).productID = i.productID ∧
      ({ cartID := "c1", productID := "p1", quantity := 7, source := "" } :
        PersistedLine).quantity = i.quantity ∧
      ({ cartID := "c1", productID := "p1", quantity := 7, source := "" } :
        PersistedLine).quantity ≤ i.maxQty :=
  cart_persist_bound_no_add
    (Cart.mk "c1" "" "" ""
      [{ productID := "p1", quantity := 2, maxQty := 10 }] "" false ["items"] [] false)
    [CartOp.update "p1" 7]
    (by intro i hi; simp at hi; subst hi; exact ⟨by norm_num, by norm_num, by norm_num⟩)
    (by intro op hop item; simp at hop; subst hop; simp)
    { cartID := "c1", productID := "p1", quantity := 7, source := "" }
    (by decide)

/-! ### Change-detection helper lemmas -/

/-- flatMap of a function that vanishes on every element is empty. -/
theorem flatMap_nil_of_forall {α β : Type} (l : List α) (f : α → List β)
    (h : ∀ a ∈ l, f a = []) : l.flatMap f = [] := by
  induction l with
  | nil => rfl
  | cons a rest ih =>
    have ha := h a (List.mem_cons_self a rest)
    have hrest := ih (fun x hx => h x (List.mem_cons_of_mem a hx))
    simp [List.flatMap_cons, ha, hrest]

/-- Deleting an element on which the function vanishes does not change a
flatMap. -/
theorem flatMap_middle_nil {α β : Type} (l1 l2 : List α) (x : α) (f : α → List β)
    (hx : f x = []) : (l1 ++ x :: l2).flatMap f = (l1 ++ l2).flatMap f := by
  induction l1 with
  | nil => simp [hx]
  | cons a rest ih => simp [List.flatMap_cons, ih]

/-! ### Claim theorems: change detection -/

/-- C7: submitting to UpdateSection an aggregate whose root fields agree with
the current snapshot and whose identified paragraphs, services and service
items are field-by-field equal to their snapshot matches produces zero
mutation statements. -/
theorem updateSection_idempotent (current incoming : Section)
    (hroot : sectionChanged current incoming = false)
    (hpara : ∀ p ∈ incoming.paragraphs, ∀ q,
      findParagraphByID current.paragraphs p.id = some q → paragraphChanged q p = false)
    (hsvc : ∀ s ∈ incoming.services, ∀ t,
      findServiceByID current.services s.id = some t →
        serviceChanged t s = false ∧
        ∀ it ∈ s.items, ∀ u, findServiceItemByID t.items it.id = some u →
          serviceItemChanged u it = false) :
    updateSectionStmts current incoming = [] := by
  unfold updateSectionStmts
  rw [hroot]
  have hps : incoming.paragraphs.flatMap
      (fun p => paragraphUpdateStmts current.paragraphs p) = [] := by
    refine flatMap_nil_of_forall _ _ (fun p hp => ?_)
    unfold paragraphUpdateStmts
    cases hfind : findParagraphByID current.paragraphs p.id with
    | none => rfl
    | some q => simp [hpara p hp q hfind]
  have hss : incoming.services.flatMap
      (fun s => serviceUpdateStmts current.services s) = [] := by
    refine flatMap_nil_of_forall _ _ (fun s hs => ?_)
    unfold serviceUpdateStmts
    cases hfind : findServiceByID current.services s.id with
    | none => rfl
    | some t =>
      obtain ⟨hch, hits⟩ := hsvc s hs t hfind
      have hti : s.items.flatMap (fun it => serviceItemUpdateStmts t.items it) = [] := by
        refine flatMap_nil_of_forall _ _ (fun it hit => ?_)
        unfold serviceItemUpdateStmts
        cases hfi : findServiceItemByID t.items it.id with
        | none => rfl
        | some u => simp [hits it hit u hfi]
      simp [hch, hti]
  simp [hps, hss]

/-- Witness for C7: re-submitting sampleSection unchanged emits no statement. -/
theorem updateSection_idempotent_witness :
    updateSectionStmts sampleSection sampleSection = [] := by
  refine updateSection_idempotent sampleSection sampleSection (by decide) ?_ ?_
  · intro p hp q hq
    simp only [sampleSection] at hp
    rw [List.mem_singleton] at hp
    subst hp
    rw [show findParagraphByID sampleSection.paragraphs samplePara.id =
      some samplePara from rfl] at hq
    obtain rfl := Option.some.inj hq
    decide
  · intro s hs t ht
    simp only [sampleSection] at hs
    rw [List.mem_singleton] at hs
    subst hs
    rw [show findServiceByID sampleSection.services sampleService.id =
      some sampleService from rfl] at ht
    obtain rfl := Option.some.inj ht
    refine ⟨by decide, ?_⟩
    intro it hit u hu
    simp only [sampleService] at hit
    rw [List.mem_singleton] at hit
    subst hit
    rw [show findServiceItemByID sampleService.items sampleItem.id =
      some sampleItem from rfl] at hu
    obtain rfl := Option.some.inj hu
    decide

/-- C8: a child whose identity has no match in the current snapshot is skipped
by the change-detection updaters: it contributes no INSERT and no UPDATE, and
the statement list is the one the payload without that child would produce.
For UpdateSection this holds for every unmatched paragraph/service/item; for
UpdateSectionWithAdditions it holds for unmatched children carrying a
non-empty identity (an empty identity means a new child). -/
theorem updateSection_orphan_frame (current incoming : Section)
    (p : SectionParagraph) (l1 l2 : List SectionParagraph)
    (s : SectionService) (m1 m2 : List SectionService)
    (hp : findParagraphByID current.paragraphs p.id = none)
    (hs : findServiceByID current.services s.id = none) :
    paragraphUpdateStmts current.paragraphs p = [] ∧
    serviceUpdateStmts current.services s = [] ∧
    updateSectionStmts current { incoming with paragraphs := l1 ++ p :: l2 } =
      updateSectionStmts current { incoming with paragraphs := l1 ++ l2 } ∧
    updateSectionStmts current { incoming with services := m1 ++ s :: m2 } =
      updateSectionStmts current { incoming with services := m1 ++ m2 } ∧
    (∀ (t c : SectionService) (it : SectionServiceItem)
        (k1 k2 : List SectionServiceItem),
      findServiceByID current.services t.id = some c →
      findServiceItemByID c.items it.id = none →
      serviceUpdateStmts current.services { t with items := k1 ++ it :: k2 } =
        serviceUpdateStmts current.services { t with items := k1 ++ k2 }) ∧
    (p.id ≠ "" →
      paragraphUpdateStmtsWithAdditions incoming.id current.paragraphs p = [] ∧
      updateSectionWithAdditionsStmts current { incoming with paragraphs := l1 ++ p :: l2 } =
        updateSectionWithAdditionsStmts current { incoming with paragraphs := l1 ++ l2 }) ∧
    (s.id ≠ "" →
      serviceUpdateStmtsWithAdditions incoming.id current.services s = [] ∧
      updateSectionWithAdditionsStmts current { incoming with services := m1 ++ s :: m2 } =
        updateSectionWithAdditionsStmts current { incoming with services := m1 ++ m2 }) := by
  have hpnil : paragraphUpdateStmts current.paragraphs p = [] := by
    unfold paragraphUpdateStmts
    rw [hp]
  have hsnil : serviceUpdateStmts current.services s = [] := by
    unfold serviceUpdateStmts
    rw [hs]
  refine ⟨hpnil, hsnil, ?_, ?_, ?_, ?_, ?_⟩
  · unfold updateSectionStmts
    dsimp only
    rw [flatMap_middle_nil l1 l2 p
      (fun q => paragraphUpdateStmts current.paragraphs q) hpnil]
    rfl
  · unfold updateSectionStmts
    dsimp only
    rw [flatMap_middle_nil m1 m2 s
      (fun t => serviceUpdateStmts current.services t) hsnil]
    rfl
  · intro t c it k1 k2 hfind hitnone
    unfold serviceUpdateStmts
    dsimp only
    rw [hfind]
    have hitnil : serviceItemUpdateStmts c.items it = [] := by
      unfold serviceItemUpdateStmts
      rw [hitnone]
    dsimp only
    rw [flatMap_middle_nil k1 k2 it
      (fun x => serviceItemUpdateStmts c.items x) hitnil]
    rfl
  · intro hpid
    have hpnil2 : paragraphUpdateStmtsWithAdditions incoming.id current.paragraphs p = [] := by
      unfold paragraphUpdateStmtsWithAdditions
      rw [if_pos hpid, hp]
    refine ⟨hpnil2, ?_⟩
    unfold updateSectionWithAdditionsStmts
    dsimp only
    rw [flatMap_middle_nil l1 l2 p
      (fun q => paragraphUpdateStmtsWithAdditions incoming.id current.paragraphs q) hpnil2]
    rfl
  · intro hsid
    have hsnil2 : serviceUpdateStmtsWithAdditions incoming.id current.services s = [] := by
      unfold serviceUpdateStmtsWithAdditions
      rw [if_pos hsid, hs]
    refine ⟨hsnil2, ?_⟩
    unfold updateSectionWithAdditionsStmts
    dsimp only
    rw [flatMap_middle_nil m1 m2 s
      (fun t => serviceUpdateStmtsWithAdditions incoming.id current.services t) hsnil2]
    rfl

/-- Witness for C8: against sampleSection, a payload carrying the orphan
paragraph alongside the known one produces the same (empty) statement list as
the payload without it. -/
theorem updateSection_orphan_frame_witness :
    updateSectionStmts sampleSection
      { sampleSection with paragraphs := [samplePara] ++ orphanPara :: [] } =
    updateSectionStmts sampleSection
      { sampleSection with paragraphs := [samplePara] ++ [] } ∧
    paragraphUpdateStmtsWithAdditions sampleSection.id sampleSection.paragraphs
      orphanPara = [] := by
  have h := updateSection_orphan_frame sampleSection sampleSection
    orphanPara [samplePara] [] orphanService [] [] (by decide) (by decide)
  exact ⟨h.2.2.1, (h.2.2.2.2.2.1 (by decide)).1⟩

/-! ### Claim theorems: order resolution and scanning -/

/-- C5 counterexample: with full-text search active and the explicit primary
sort key name_asc, the resolved products clause is plain "ORDER BY name ASC":
relevance is NOT added as a secondary tiebreaker (price keys do get it). -/
theorem orderby_name_no_rank_counterexample :
    buildProductsOrderByClause
      { search := "a", searchMode := "fulltext", sort := "name_asc" } =
      "ORDER BY name ASC" ∧
    ¬ List.IsInfix "search_rank".data
      (buildProductsOrderByClause
        { search := "a", searchMode := "fulltext", sort := "name_asc" }).data := by
  exact ⟨rfl, by decide⟩

/-- C5 (amended): when full-text search is active, the price keys (products)
and the title/date keys (sections) resolve to that key as primary with
relevance-descending as the secondary tiebreaker; the name keys resolve to a
plain name ordering with NO relevance tiebreaker; and the token relevance,
the empty token, and any unknown token resolve to relevance-descending as
the primary ordering. -/
theorem orderby_fulltext_tiebreak (f : ProductFilterParams) (g : SectionFilterParams)
    (hfs : f.search ≠ "") (hfm : f.searchMode = SearchModeFullText)
    (hgs : g.search ≠ "") (hgm : g.searchMode = SearchModeFullText) :
    (goToLower f.sort = "relevance" ∨ goToLower f.sort = "" →
      buildProductsOrderByClause f = "ORDER BY search_rank DESC, name ASC") ∧
    (goToLower f.sort = "price_asc" →
      buildProductsOrderByClause f = "ORDER BY price ASC, search_rank DESC") ∧
    (goToLower f.sort = "price_desc" →
      buildProductsOrderByClause f = "ORDER BY price DESC, search_rank DESC") ∧
    (goToLower f.sort = "name_asc" ∨ goToLower f.sort = "name" →
      buildProductsOrderByClause f = "ORDER BY name ASC") ∧
    (goToLower f.sort = "name_desc" →
      buildProductsOrderByClause f = "ORDER BY name DESC") ∧
    (goToLower f.sort ≠ "relevance" → goToLower f.sort ≠ "" →
     goToLower f.sort ≠ "name_asc" → goToLower f.sort ≠ "name" →
     goToLower f.sort ≠ "name_desc" → goToLower f.sort ≠ "price_asc" →
     goToLower f.sort ≠ "price_desc" →
      buildProductsOrderByClause f = "ORDER BY search_rank DESC, name ASC") ∧
    (goToLower g.sort = "title_asc" →
      buildSectionOrderByClause g = "ORDER BY title ASC, search_rank DESC") ∧
    (goToLower g.sort = "title_desc" →
      buildSectionOrderByClause g = "ORDER BY title DESC, search_rank DESC") ∧
    (goToLower g.sort = "created_asc" →
      buildSectionOrderByClause g = "ORDER BY created_at ASC, search_rank DESC") ∧
    (goToLower g.sort = "created_desc" ∨ goToLower g.sort = "newest" →
      buildSectionOrderByClause g = "ORDER BY created_at DESC, search_rank DESC") ∧
    (goToLower g.sort = "updated_asc" →
      buildSectionOrderByClause g = "ORDER BY updated_at ASC, search_rank DESC") ∧
    (goToLower g.sort = "updated_desc" ∨ goToLower g.sort = "recent" →
      buildSectionOrderByClause g = "ORDER BY updated_at DESC, search_rank DESC") ∧
    (goToLower g.sort = "name_asc" ∨ goToLower g.sort = "name" →
      buildSectionOrderByClause g = "ORDER BY name ASC") ∧
    (goToLower g.sort = "relevance" ∨ goToLower g.sort = "" →
      buildSectionOrderByClause g = "ORDER BY search_rank DESC, name ASC") ∧
    (goToLower g.sort = "name_desc" →
      buildSectionOrderByClause g = "ORDER BY name DESC") ∧
    (goToLower g.sort ≠ "relevance" → goToLower g.sort ≠ "" →
     goToLower g.sort ≠ "name_asc" → goToLower g.sort ≠ "name" →
     goToLower g.sort ≠ "name_desc" → goToLower g.sort ≠ "title_asc" →
     goToLower g.sort ≠ "title_desc" → goToLower g.sort ≠ "created_asc" →
     goToLower g.sort ≠ "created_desc" → goToLower g.sort ≠ "newest" →
     goToLower g.sort ≠ "updated_asc" → goToLower g.sort ≠ "updated_desc" →
     goToLower g.sort ≠ "recent" →
      buildSectionOrderByClause g = "ORDER BY search_rank DESC, name ASC") := by
  refine ⟨?_, ?_, ?_, ?_, ?_, ?_, ?_, ?_, ?_, ?_, ?_, ?_, ?_, ?_, ?_, ?_⟩
  · intro h
    rcases h with h | h <;> simp [buildProductsOrderByClause, hfs, hfm, h]
  · intro h
    simp [buildProductsOrderByClause, hfs, hfm, h]
  · intro h
    simp [buildProductsOrderByClause, hfs, hfm, h]
  · intro h
    rcases h with h | h <;> simp [buildProductsOrderByClause, hfs, hfm, h]
  · intro h
    simp [buildProductsOrderByClause, hfs, hfm, h]
  · intro h1 h2 h3 h4 h5 h6 h7
    simp [buildProductsOrderByClause, hfs, hfm, h1, h2, h3, h4, h5, h6, h7]
  · intro h
    simp [buildSectionOrderByClause, hgs, hgm, h]
  · intro h
    simp [buildSectionOrderByClause, hgs, hgm, h]
  · intro h
    simp [buildSectionOrderByClause, hgs, hgm, h]
  · intro h
    rcases h with h | h <;> simp [buildSectionOrderByClause, hgs, hgm, h]
  · intro h
    simp [buildSectionOrderByClause, hgs, hgm, h]
  · intro h
    rcases h with h | h <;> simp [buildSectionOrderByClause, hgs, hgm, h]
  · intro h
    rcases h with h | h <;> simp [buildSectionOrderByClause, hgs, hgm, h]
  · intro h
    rcases h with h | h <;> simp [buildSectionOrderByClause, hgs, hgm, h]
  · intro h
    simp [buildSectionOrderByClause, hgs, hgm, h]
  · intro h1 h2 h3 h4 h5 h6 h7 h8 h9 h10 h11 h12 h13
    simp [buildSectionOrderByClause, hgs, hgm, h1, h2, h3, h4, h5, h6, h7, h8, h9,
      h10, h11, h12, h13]

/-- Witness for C5 at concrete inputs: price_asc products clause keeps the
rank tiebreaker and title_asc sections clause keeps it. -/
theorem orderby_fulltext_tiebreak_witness :
    buildProductsOrderByClause
      { search := "a", searchMode := "fulltext", sort := "price_asc" } =
      "ORDER BY price ASC, search_rank DESC" ∧
    buildSectionOrderByClause
      { search := "a", searchMode := "fulltext", sort := "title_asc" } =
      "ORDER BY title ASC, search_rank DESC" := by
  have h := orderby_fulltext_tiebreak
    { search := "a", searchMode := "fulltext", sort := "price_asc" }
    { search := "a", searchMode := "fulltext", sort := "title_asc" }
    (by decide) rfl (by decide) rfl
  exact ⟨h.2.1 rfl, h.2.2.2.2.2.2.1 rfl⟩

/-- A 13-column row never scans in the 12-destination branch of scanProducts. -/
theorem scanProductRow_nonrank_len13 (row : List DBValue)
    (h : row.length = 13) :
    scanProductRow false row = .error "failed to scan product" := by
  rcases row with _ | ⟨v0, row⟩
  · simp at h
  rcases row with _ | ⟨v1, row⟩
  · simp at h
  rcases row with _ | ⟨v2, row⟩
  · simp at h
  rcases row with _ | ⟨v3, row⟩
  · simp at h
  rcases row with _ | ⟨v4, row⟩
  · simp at h
  rcases row with _ | ⟨v5, row⟩
  · simp at h
  rcases row with _ | ⟨v6, row⟩
  · simp at h
  rcases row with _ | ⟨v7, row⟩
  · simp at h
  rcases row with _ | ⟨v8, row⟩
  · simp at h
  rcases row with _ | ⟨v9, row⟩
  · simp at h
  rcases row with _ | ⟨v10, row⟩
  · simp at h
  rcases row with _ | ⟨v11, row⟩
  · simp at h
  rcases row with _ | ⟨v12, row⟩
  · simp at h
  rcases row with _ | ⟨v13, row⟩
  · rfl
  · simp at h

/-- C2: with an explicit Exact or Fuzzy search mode, the FilterProducts scan
phase fails on every non-empty result set: the data query produces 13 columns
but the non-full-text branch of scanProducts supplies only 12 destinations. -/
theorem filterProducts_nonfulltext_scan_error (filters : ProductFilterParams)
    (rows : List (List DBValue))
    (hmode : filters.searchMode = SearchModeExact ∨ filters.searchMode = SearchModeFuzzy)
    (hrows : ∀ r ∈ rows, r.length = productSelectColumns.length)
    (hne : rows ≠ []) :
    filterProductsScan filters rows = .error "failed to scan product" := by
  have hmode2 : (normalizeProductFilters filters).searchMode = filters.searchMode := by
    rw [normalizeProductFilters_eq]
    have : ¬ filters.searchMode = "" := by
      rcases hmode with h | h <;> rw [h] <;> decide
    simp [this]
  have hnotft : ¬ ((normalizeProductFilters filters).searchMode = SearchModeFullText) := by
    rw [hmode2]
    rcases hmode with h | h <;> rw [h] <;> decide
  obtain ⟨r, rest, rfl⟩ := List.exists_cons_of_ne_nil hne
  have hr : r.length = 13 := hrows r (List.mem_cons_self r rest)
  unfold filterProductsScan
  dsimp only
  have hdec : decide ((normalizeProductFilters filters).searchMode = SearchModeFullText)
      = false := by
    simpa using hnotft
  rw [hdec]
  show (do
    let p ← scanProductRow false r
    let ps ← scanProducts rest false
    Except.ok (p :: ps)) = Except.error "failed to scan product"
  rw [scanProductRow_nonrank_len13 r hr]
  rfl

/-- Witness for C2 at a concrete input: an exact-mode filter over one
well-formed 13-column row yields the scan error. -/
theorem filterProducts_nonfulltext_scan_error_witness :
    filterProductsScan { search := "x", searchMode := "exact" }
      [[DBValue.str "id1", DBValue.str "N", DBValue.str "D", DBValue.null,
        DBValue.str "c1", DBValue.str "C", DBValue.null, DBValue.bool true,
        DBValue.int 4, DBValue.str "", DBValue.str "slug", DBValue.strArr [],
        DBValue.int 0]] = .error "failed to scan product" :=
  filterProducts_nonfulltext_scan_error _ _ (Or.inl rfl)
    (by intro r hr; simp at hr; subst hr; rfl) (by simp)

/-- C3 counterexample: the FilterProducts read path (scanProducts) performs no
availability correction: a row persisted as available with stock quantity 0
is returned with available still true. -/
theorem scanProducts_no_correction_counterexample :
    (scanProducts [[DBValue.str "id1", DBValue.str "N", DBValue.str "D", DBValue.null,
      DBValue.str "c1", DBValue.str "C", DBValue.null, DBValue.bool true, DBValue.int 0,
      DBValue.str "", DBValue.str "slug", DBValue.strArr [], DBValue.num 0]] true).map
        (fun ps => ps.map (fun p => (p.available, p.quantity))) =
      .ok [(true, 0)] := rfl

/-- C3 (amended): the read-time availability correction is applied by the
catalog read path only: scanCatalogProducts returns available = false whenever
the scanned quantity is non-positive, while scanProducts (the FilterProducts
materializer) returns the persisted availability flag unchanged regardless of
quantity. -/
theorem availability_correction_split (id n d ld cid cn iu qr sl : String)
    (b : Bool) (q : Int) (xs : List String) (r : ℚ) (includeRank : Bool) :
    (scanCatalogProductRow includeRank
      [.str id, .str n, .str d, .str ld, .str cid, .str cn, .str iu, .bool b,
       .strArr xs, .str sl, .int q, .num r]).map
        (fun p => (p.available, p.quantity)) =
      .ok (if q ≤ 0 then false else b, q) ∧
    (scanProductRow true
      [.str id, .str n, .str d, .null, .str cid, .str cn, .null, .bool b, .int q,
       .str qr, .str sl, .strArr xs, .num r]).map
        (fun p => (p.available, p.quantity)) =
      .ok (b, q) :=
  ⟨rfl, rfl⟩

end QRCatalog
